import Mathlib

/-!
Shallow embedding of the QuantaFiAgent Slack event-ingestion gateway
(`ai_system/slack_backend`): signature verification, TTL dedup cache,
event normalization and the webhook orchestration pipeline, together with
theorems settling the specification's claims about them.

Machine integers are modelled as `Nat`/`Int` with explicit reduction
modulo `2^32` where the SHA-256 word arithmetic overflows; wall-clock
instants are modelled as `ℚ` (Python `time.time()` floats); fallible
Python code (raising `ValueError`, `KeyError`, HTTP errors) is modelled
with `Option`/`Except`.
-/

namespace QuantaFi

/-! ### Bytes and UTF-8 (Python `str.encode()` / `bytes.decode('utf-8')`) -/

/-- UTF-8 encoding of one code point, as bytes (each `< 256`). -/
def utf8Char (c : Char) : List Nat :=
  let n := c.toNat
  if n < 0x80 then [n]
  else if n < 0x800 then
    [0xC0 ||| (n >>> 6), 0x80 ||| (n &&& 0x3F)]
  else if n < 0x10000 then
    [0xE0 ||| (n >>> 12), 0x80 ||| ((n >>> 6) &&& 0x3F), 0x80 ||| (n &&& 0x3F)]
  else
    [0xF0 ||| (n >>> 18), 0x80 ||| ((n >>> 12) &&& 0x3F),
     0x80 ||| ((n >>> 6) &&& 0x3F), 0x80 ||| (n &&& 0x3F)]

/-- UTF-8 encoding of a string, as in Python's `str.encode()`.  A raw
request body (Python `bytes`) is represented by its decoded string, so
`utf8Bytes` recovers exactly the original bytes for valid-UTF-8 bodies. -/
def utf8Bytes (s : String) : List Nat :=
  s.data.foldr (fun c acc => utf8Char c ++ acc) []

/-! ### SHA-256 (`hashlib.sha256`), over byte lists, words as `Nat % 2^32` -/

def w32 (n : Nat) : Nat := n % 4294967296

def rotr32 (k x : Nat) : Nat := (x >>> k) ||| w32 (x <<< (32 - k))

def ssig0 (x : Nat) : Nat := rotr32 7 x ^^^ rotr32 18 x ^^^ (x >>> 3)

def ssig1 (x : Nat) : Nat := rotr32 17 x ^^^ rotr32 19 x ^^^ (x >>> 10)

def bsig0 (x : Nat) : Nat := rotr32 2 x ^^^ rotr32 13 x ^^^ rotr32 22 x

def bsig1 (x : Nat) : Nat := rotr32 6 x ^^^ rotr32 11 x ^^^ rotr32 25 x

def chFn (x y z : Nat) : Nat := (x &&& y) ^^^ ((x ^^^ 0xFFFFFFFF) &&& z)

def majFn (x y z : Nat) : Nat := (x &&& y) ^^^ (x &&& z) ^^^ (y &&& z)

/-- The 64 SHA-256 round constants, written in decimal. -/
def sha256K : List Nat :=
  [1116352408, 1899447441, 3049323471, 3921009573, 961987163, 1508970993,
   2453635748, 2870763221, 3624381080, 310598401, 607225278, 1426881987,
   1925078388, 2162078206, 2614888103, 3248222580, 3835390401, 4022224774,
   264347078, 604807628, 770255983, 1249150122, 1555081692, 1996064986,
   2554220882, 2821834349, 2952996808, 3210313671, 3336571891, 3584528711,
   113926993, 338241895, 666307205, 773529912, 1294757372, 1396182291,
   1695183700, 1986661051, 2177026350, 2456956037, 2730485921, 2820302411,
   3259730800, 3345764771, 3516065817, 3600352804, 4094571909, 275423344,
   430227734, 506948616, 659060556, 883997877, 958139571, 1322822218,
   1537002063, 1747873779, 1955562222, 2024104815, 2227730452, 2361852424,
   2428436474, 2756734187, 3204031479, 3329325298]

/-- The eight SHA-256 initial hash words, written in decimal. -/
def sha256H0 : List Nat :=
  [1779033703, 3144134277, 1013904242, 2773480762,
   1359893119, 2600822924, 528734635, 1541459225]

/-- Big-endian bytes of a value in `k` bytes. -/
def beBytes : Nat → Nat → List Nat
  | 0, _ => []
  | k + 1, n => beBytes k (n >>> 8) ++ [n &&& 0xFF]

/-- SHA-256 message padding: append `0x80`, zero bytes, and the 64-bit
big-endian bit length, to a multiple of 64 bytes. -/
def sha256Pad (msg : List Nat) : List Nat :=
  let L := msg.length
  let zeros := (64 - ((L + 9) % 64)) % 64
  msg ++ [0x80] ++ List.replicate zeros 0 ++ beBytes 8 (8 * L)

/-- Group a byte list into big-endian 32-bit words. -/
def toWords : List Nat → List Nat
  | b0 :: b1 :: b2 :: b3 :: rest =>
      (((b0 <<< 8 ||| b1) <<< 8 ||| b2) <<< 8 ||| b3) :: toWords rest
  | _ => []

/-- Extend 16 message-schedule words to 64. -/
def sha256Schedule (ws : Array Nat) : Array Nat :=
  (List.range 48).foldl
    (fun a i =>
      a.push (w32 (ssig1 (a.getD (i + 14) 0) + a.getD (i + 9) 0 +
                   ssig0 (a.getD (i + 1) 0) + a.getD i 0)))
    ws

structure Sha256State where
  a : Nat
  b : Nat
  c : Nat
  d : Nat
  e : Nat
  f : Nat
  g : Nat
  h : Nat

def sha256Round (st : Sha256State) (kw : Nat × Nat) : Sha256State :=
  let t1 := w32 (st.h + bsig1 st.e + chFn st.e st.f st.g + kw.1 + kw.2)
  let t2 := w32 (bsig0 st.a + majFn st.a st.b st.c)
  ⟨w32 (t1 + t2), st.a, st.b, st.c, w32 (st.d + t1), st.e, st.f, st.g⟩

/-- One 64-byte chunk: run 64 rounds and add into the running hash. -/
def sha256Chunk (h : List Nat) (chunk : List Nat) : List Nat :=
  let ws := sha256Schedule (toWords chunk).toArray
  let init : Sha256State :=
    ⟨h.getD 0 0, h.getD 1 0, h.getD 2 0, h.getD 3 0,
     h.getD 4 0, h.getD 5 0, h.getD 6 0, h.getD 7 0⟩
  let fin := (sha256K.zip ws.toList).foldl sha256Round init
  [w32 (h.getD 0 0 + fin.a), w32 (h.getD 1 0 + fin.b), w32 (h.getD 2 0 + fin.c),
   w32 (h.getD 3 0 + fin.d), w32 (h.getD 4 0 + fin.e), w32 (h.getD 5 0 + fin.f),
   w32 (h.getD 6 0 + fin.g), w32 (h.getD 7 0 + fin.h)]

/-- Split a (padded) byte list into 64-byte chunks. -/
def chunks64 : List Nat → List (List Nat)
  | [] => []
  | b :: rest => ((b :: rest).take 64) :: chunks64 ((b :: rest).drop 64)
termination_by l => l.length
decreasing_by simp [List.length_drop]; omega

/-- SHA-256 digest of a byte list, as 32 bytes. -/
def sha256 (msg : List Nat) : List Nat :=
  let final := (chunks64 (sha256Pad msg)).foldl sha256Chunk sha256H0
  final.foldr (fun word acc => beBytes 4 word ++ acc) []

/-! ### HMAC-SHA256 (`hmac.new(key, msg, hashlib.sha256)`) -/

/-- HMAC-SHA256 over byte lists (block size 64). -/
def hmacSha256 (key msg : List Nat) : List Nat :=
  let k1 := if 64 < key.length then sha256 key else key
  let k0 := k1 ++ List.replicate (64 - k1.length) 0
  let ipad := k0.map (fun b => b ^^^ 0x36)
  let opad := k0.map (fun b => b ^^^ 0x5C)
  sha256 (opad ++ sha256 (ipad ++ msg))

/-- Lowercase hex digit for a value below 16: `0`–`9` then `a`–`f`. -/
def hexChar (n : Nat) : Char :=
  if n < 10 then Char.ofNat (48 + n) else Char.ofNat (87 + n)

/-- Lowercase hex encoding of a byte list (`.hexdigest()`). -/
def hexDigest (bs : List Nat) : String :=
  ⟨bs.foldr (fun b acc => hexChar (b / 16 % 16) :: hexChar (b % 16) :: acc) []⟩

/-! ### Python numeric-string parsing (`int(s)`, `float(s)`) -/

def isPySpace (c : Char) : Bool :=
  c = ' ' ∨ c = '\t' ∨ c = '\n' ∨ c = '\r' ∨ c = '\x0b' ∨ c = '\x0c'

def trimPySpace (l : List Char) : List Char :=
  ((l.dropWhile isPySpace).reverse.dropWhile isPySpace).reverse

/-- Digit run with Python's single-underscore-between-digits rule,
accumulating after a leading digit has been consumed. -/
def pyDigitsAux : Nat → List Char → Option Nat
  | acc, [] => some acc
  | _, ['_'] => none
  | acc, '_' :: c :: rest =>
      if c.isDigit then pyDigitsAux (acc * 10 + (c.toNat - 48)) rest else none
  | acc, c :: rest =>
      if c.isDigit then pyDigitsAux (acc * 10 + (c.toNat - 48)) rest else none

/-- Nonempty decimal digit run (underscore separators allowed). -/
def pyDigits : List Char → Option Nat
  | [] => none
  | c :: rest => if c.isDigit then pyDigitsAux (c.toNat - 48) rest else none

/-- Python `int(s)` on a decimal string: optional surrounding whitespace,
optional sign, then a digit run.  `none` models the `ValueError` raised on
anything else (e.g. `""` or `"100.5"`). -/
def pyInt (s : String) : Option Int :=
  match trimPySpace s.data with
  | [] => none
  | '-' :: rest => (pyDigits rest).map (fun n => -(n : Int))
  | '+' :: rest => (pyDigits rest).map (fun n => (n : Int))
  | l => (pyDigits l).map (fun n => (n : Int))

/-- Value of a plain digit run (no underscores), used for float fractions. -/
def digitsVal (l : List Char) : Nat :=
  l.foldl (fun acc c => acc * 10 + (c.toNat - 48)) 0

/-- Python `float(s)` restricted to the plain decimal forms Slack event
timestamps take: optional whitespace and sign, `digits`, `digits.digits`,
`digits.` or `.digits`.  Exponent, underscore, `inf` and `nan` forms —
which no claim exercises — are mapped to `none` like any other
unparseable string (`ValueError`). -/
def pyFloat (s : String) : Option ℚ :=
  let cs := trimPySpace s.data
  let signed : Int × List Char :=
    match cs with
    | '-' :: rest => (-1, rest)
    | '+' :: rest => (1, rest)
    | l => (1, l)
  let ip := signed.2.takeWhile Char.isDigit
  let rest := signed.2.dropWhile Char.isDigit
  match rest with
  | [] => if ip.isEmpty then none else some (signed.1 * (digitsVal ip : ℚ))
  | '.' :: frac =>
      if frac.all Char.isDigit ∧ ¬ (ip.isEmpty ∧ frac.isEmpty) then
        some (signed.1 * ((digitsVal ip : ℚ) + (digitsVal frac : ℚ) / (10 : ℚ) ^ frac.length))
      else none
  | _ => none

/-- `float(x)` where `x` came from `event.get("ts")`: `float(None)` raises
`TypeError`, modelled as `none`. -/
def pyFloatO : Option String → Option ℚ
  | none => none
  | some s => pyFloat s

/-- Python f-string interpolation of a value that may be `None`. -/
def pyStrOpt : Option String → String
  | none => "None"
  | some s => s

/-- Python truthiness of an optional string (`event.get("bot_id")`). -/
def pyTruthy : Option String → Bool
  | none => false
  | some s => s ≠ ""

/-! ### Signature Verifier (`handlers/verifier.py`, `SlackRequestVerifier.verify`) -/

/-- The signature the verifier computes for a request:
`"v0=" + hexdigest(HMAC-SHA256(secret, "v0:" + timestamp + ":" + body))`. -/
def expectedSignature (secret timestamp body : String) : String :=
  "v0=" ++ hexDigest (hmacSha256 (utf8Bytes secret) (utf8Bytes ("v0:" ++ timestamp ++ ":" ++ body)))

/-- `SlackRequestVerifier.verify(body, timestamp, signature)` at wall-clock
`now`.  `int(timestamp)` raising `ValueError` is `Except.error ()`; the
request body is carried as its decoded UTF-8 string. -/
def verify (secret body timestamp signature : String) (now : ℚ) : Except Unit Bool :=
  match pyInt timestamp with
  | none => .error ()
  | some n =>
      if 60 * 5 < |now - (n : ℚ)| then .ok false
      else .ok (expectedSignature secret timestamp body == signature)

/-! ### Event Cache (`utils/cache.py`, `EventCache`) -/

/-- The dedup cache: insertion-ordered id/timestamp pairs (the
`OrderedDict`) plus the TTL. -/
structure EventCache where
  entries : List (String × ℚ)
  ttl : ℚ
deriving DecidableEq

namespace EventCache

def empty (ttl : ℚ) : EventCache := ⟨[], ttl⟩

def keys (c : EventCache) : List String := c.entries.map Prod.fst

/-- `_cleanup()`: delete every entry with `now - timestamp > ttl`,
preserving the order of the survivors. -/
def cleanup (c : EventCache) (now : ℚ) : EventCache :=
  ⟨c.entries.filter (fun e => ! decide (c.ttl < now - e.2)), c.ttl⟩

/-- `OrderedDict` assignment `cache[id] = t`: overwrite in place when the
key exists (keeping its position), append otherwise. -/
def setEntry : List (String × ℚ) → String → ℚ → List (String × ℚ)
  | [], id, t => [(id, t)]
  | e :: es, id, t => if e.1 = id then (id, t) :: es else e :: setEntry es id t

/-- `add_event(event_id)` at wall-clock `now`. -/
def addEvent (c : EventCache) (id : String) (now : ℚ) : EventCache :=
  ⟨setEntry c.entries id now, c.ttl⟩

/-- `has_event(event_id)` at wall-clock `now`: sweep, then report
membership.  Returns the answer together with the post-sweep cache. -/
def hasEvent (c : EventCache) (id : String) (now : ℚ) : Bool × EventCache :=
  let c2 := c.cleanup now
  (c2.entries.any (fun e => e.1 == id), c2)

/-- `get_age(event_id)` at wall-clock `now`: no sweep, just lookup. -/
def getAge (c : EventCache) (id : String) (now : ℚ) : Option ℚ :=
  match c.entries.lookup id with
  | none => none
  | some t => some (now - t)

end EventCache

/-! ### Slack events and request payloads -/

/-- The fields of `body["event"]` the gateway and normalizer read; absent
keys are `none`. -/
structure SlackEvent where
  type_ : Option String := none
  ts : Option String := none
  subtype : Option String := none
  bot_id : Option String := none
  text : Option String := none
  channel : Option String := none
  channel_type : Option String := none
  thread_ts : Option String := none
  user : Option String := none
  team : Option String := none
deriving DecidableEq

/-- A parsed webhook body, or the result of `await request.json()` raising
on malformed JSON. -/
inductive RequestBody where
  | malformed : RequestBody
  | parsed (type_ : Option String) (challenge : Option String) (event : Option SlackEvent) : RequestBody

/-- `event_id = f"{event_type}:{event_ts}"`. -/
def eventIdentity (ev : SlackEvent) : String :=
  pyStrOpt ev.type_ ++ ":" ++ pyStrOpt ev.ts

/-! ### Normalizer (`handlers/normalizer.py`, `SlackEventNormalizer`) -/

/-- `re.sub(r'<@[A-Z0-9]+>', '', text)` character class. -/
def isMentionIdChar (c : Char) : Bool := ('A' ≤ c ∧ c ≤ 'Z') ∨ ('0' ≤ c ∧ c ≤ '9')

/-- After a `'<'`, try to consume `@[A-Z0-9]+>`; on success return the
remaining input past the `'>'`. -/
def matchMention : List Char → Option (List Char)
  | '@' :: rest =>
      let ds := rest.takeWhile isMentionIdChar
      match rest.dropWhile isMentionIdChar with
      | '>' :: tail => if ds.isEmpty then none else some tail
      | _ => none
  | _ => none

/-- Scanner for the leftmost, non-overlapping removal of `<@[A-Z0-9]+>`
tokens (the effect of `re.sub` with an empty replacement).  The fuel
argument only bounds the recursion; each step consumes at least one input
character, so `stripMentionTokens` below supplies enough fuel that the
exhaustion branch is unreachable. -/
def stripMentionsGo : Nat → List Char → List Char
  | 0, l => l
  | _ + 1, [] => []
  | fuel + 1, '<' :: rest =>
      match matchMention rest with
      | some tail => stripMentionsGo fuel tail
      | none => '<' :: stripMentionsGo fuel rest
  | fuel + 1, c :: rest => c :: stripMentionsGo fuel rest

def stripMentionTokens (l : List Char) : List Char := stripMentionsGo l.length l

/-- `_clean_bot_mentions(text)`: strip mention tokens, then `str.strip()`. -/
def cleanBotMentions (s : String) : String :=
  ⟨trimPySpace (stripMentionTokens s.data)⟩

structure AgentSource where
  platform : String
  workspace : String
  channel : String
  thread_ts : String
  user_id : String
  username : String
deriving DecidableEq

structure AgentDescriptor where
  name : String
  type_ : String
deriving DecidableEq

structure AgentMessage where
  text : String
  raw_text : String
deriving DecidableEq

structure AgentContext where
  conversation_id : String
deriving DecidableEq

/-- `AgentRequest` (the CanonicalRequest): `context` is the dict
`\x7b"conversation_id": ...\x7d` built by `normalize`. -/
structure AgentRequest where
  id : String
  timestamp : String
  source : AgentSource
  agent : AgentDescriptor
  message : AgentMessage
  context : AgentContext
deriving DecidableEq

/-- `SlackEventNormalizer.normalize(event)`.  The freshly generated
`str(uuid4())` and `datetime.utcnow().isoformat()+"Z"` are passed in as
`reqId`/`reqTs`; `userLookup` is the `users_info` collaborator (`none`
models `SlackApiError`, which falls back to `"unknown"`).  `Except.error`
models the `KeyError` raised when `ts`, `channel` or `user` is absent. -/
def normalize (ev : SlackEvent) (reqId reqTs : String) (userLookup : Option String) :
    Except Unit AgentRequest :=
  match ev.ts, ev.channel, ev.user with
  | some tsv, some chan, some uid =>
      let username := match userLookup with
        | some nm => nm
        | none => "unknown"
      let rawText := ev.text.getD ""
      let cleanText := cleanBotMentions rawText
      let threadTs := ev.thread_ts.getD tsv
      .ok { id := reqId
            timestamp := reqTs
            source := { platform := "slack", workspace := ev.team.getD "unknown",
                        channel := chan, thread_ts := threadTs,
                        user_id := uid, username := username }
            agent := { name := "engineer", type_ := "developer" }
            message := { text := cleanText, raw_text := rawText }
            context := { conversation_id := chan ++ ":" ++ threadTs } }
  | _, _, _ => .error ()

/-! ### Gateway synchronous phase (`handlers/slack_gateway.py`, `handle_event`) -/

/-- The HTTP result of the synchronous phase.  `serverError` is an
unhandled exception escaping the handler (FastAPI answers 500);
`unauthorized` is the explicit `HTTPException(401)`. -/
inductive HttpResponse where
  | serverError : HttpResponse
  | unauthorized : HttpResponse
  | challenge (token : Option String) : HttpResponse
  | okTrue : HttpResponse
deriving DecidableEq

/-- HTTP status code of each synchronous outcome. -/
def statusCode : HttpResponse → Nat
  | .serverError => 500
  | .unauthorized => 401
  | .challenge _ => 200
  | .okTrue => 200

/-- The arguments `background_tasks.add_task(self._process_event_async, ...)`
is called with. -/
structure BackgroundTask where
  event : SlackEvent
  event_type : Option String
  should_respond : Bool
deriving DecidableEq

/-- Result of one `handle_event` call: the HTTP response, the event cache
afterwards, and the scheduled background task if any. -/
structure HandleOutcome where
  response : HttpResponse
  cache : EventCache
  task : Option BackgroundTask
deriving DecidableEq

/-- `_should_respond(event, event_type)`. -/
def shouldRespond (ev : SlackEvent) : Bool :=
  if ev.type_ = some "app_mention" then true
  else if ev.type_ = some "message" then
    ev.channel_type = some "im" ∨ ev.channel_type = some "mpim"
  else false

/-- The `event_callback` branch of `handle_event`, from the dedup/freshness
gates on. -/
def handleEventCallback (botUserId : String) (cache : EventCache) (ev : SlackEvent)
    (now : ℚ) : HandleOutcome :=
  let eventId := eventIdentity ev
  match pyFloatO ev.ts with
  | none => ⟨.serverError, cache, none⟩
  | some tsv =>
      if 60 < now - tsv then ⟨.okTrue, cache, none⟩
      else
        let hres := cache.hasEvent eventId now
        if hres.1 then ⟨.okTrue, hres.2, none⟩
        else
          let cache2 := hres.2.addEvent eventId now
          if ev.subtype = some "bot_message" ∨ pyTruthy ev.bot_id then
            ⟨.okTrue, cache2, none⟩
          else if ev.type_ = some "message" ∧ botUserId ≠ "" ∧
              ("<@" ++ botUserId ++ ">").data <:+: (ev.text.getD "").data then
            ⟨.okTrue, cache2, none⟩
          else if ev.type_ = some "app_mention" ∨ ev.type_ = some "message" then
            ⟨.okTrue, cache2, some ⟨ev, ev.type_, shouldRespond ev⟩⟩
          else ⟨.okTrue, cache2, none⟩

/-- `handle_event(request, background_tasks)` at wall-clock `now`:
body parse, signature verification, challenge handling, then the
`event_callback` branch.  `tsHeader`/`sigHeader` are the two Slack headers
(`none` when absent; the code substitutes `""`), `rawBody` the decoded
request body. -/
def handleEvent (secret botUserId : String) (cache : EventCache)
    (tsHeader sigHeader : Option String) (rawBody : String)
    (body : RequestBody) (now : ℚ) : HandleOutcome :=
  match body with
  | .malformed => ⟨.serverError, cache, none⟩
  | .parsed btype challenge evOpt =>
      match verify secret rawBody (tsHeader.getD "") (sigHeader.getD "") now with
      | .error _ => ⟨.serverError, cache, none⟩
      | .ok false => ⟨.unauthorized, cache, none⟩
      | .ok true =>
          if btype = some "url_verification" then ⟨.challenge challenge, cache, none⟩
          else if btype = some "event_callback" then
            handleEventCallback botUserId cache (evOpt.getD {}) now
          else ⟨.okTrue, cache, none⟩

/-! ### Gateway background phase (`_process_event_async`) and transcript -/

/-- One line of a conversation transcript file
(`ChatHistory.append`): the `name`/`content` keys are omitted when the
corresponding Python value is falsy. -/
structure TranscriptEntry where
  conversation_id : String
  role : String
  name : Option String
  content : Option String
deriving DecidableEq

/-- OpenAI-compatible name sanitization in `ChatHistory.append`. -/
def sanitizeName (s : String) : String :=
  (s.replace "." "_").replace "-" "_"

/-- `ChatHistory.append(conversation_id, role, content, name)`. -/
def chatAppend (hist : List TranscriptEntry) (conversationId role content name : String) :
    List TranscriptEntry :=
  hist ++ [⟨conversationId, role,
            if name = "" then none else some (sanitizeName name),
            if content = "" then none else some content⟩]

/-- Observable outcome of one background run: the transcript afterwards,
whether the forward and post collaborators were invoked, and whether the
enclosing `except` logged an error instead of re-raising. -/
structure AsyncOutcome where
  transcript : List TranscriptEntry
  forwardCalled : Bool
  postCalled : Bool
  errorLogged : Bool
deriving DecidableEq

/-- `_process_event_async(event, event_type, should_respond)`.
External collaborators appear as oracles: `userLookup` is the
`users_info` call (`none` = failure, falling back to the raw user id);
`forwardResult` is `AgentBackendClient.forward_request` (`Except.error ()`
= the 502 `BackendUnavailable` `HTTPException`); `postOk` is whether
`SlackResponder.post_message` succeeds.  Every exception is caught by the
surrounding `try`/`except` and logged, never re-raised. -/
def processEventAsync (hist : List TranscriptEntry) (ev : SlackEvent)
    (should_respond : Bool) (userLookup : Option String) (reqId reqTs : String)
    (forwardResult : Except Unit Unit) (postOk : Bool) : AsyncOutcome :=
  match ev.channel, ev.ts with
  | some chan, some tsv =>
      let conversationId := chan ++ ":" ++ (ev.thread_ts.getD tsv)
      let username := match ev.user, userLookup with
        | none, _ => "unknown"
        | some uid, none => uid
        | some _, some nm => nm
      let cleanText := cleanBotMentions (ev.text.getD "")
      let hist1 := chatAppend hist conversationId "user" cleanText username
      if should_respond then
        match normalize ev reqId reqTs userLookup with
        | .error _ => ⟨hist1, false, false, true⟩
        | .ok _req =>
            match forwardResult with
            | .error _ => ⟨hist1, true, false, true⟩
            | .ok _ => ⟨hist1, true, true, !postOk⟩
      else ⟨hist1, false, false, false⟩
  | _, _ => ⟨hist, false, false, true⟩

/-! ### Lemmas about the event cache -/

namespace EventCache

theorem lookup_setEntry (l : List (String × ℚ)) (id : String) (t : ℚ) :
    (setEntry l id t).lookup id = some t := by
  induction l with
  | nil => simp [setEntry, List.lookup]
  | cons e es ih =>
      obtain ⟨k, v⟩ := e
      by_cases he : k = id
      · simp [setEntry, he, List.lookup]
      · simp only [setEntry, he, if_false, List.lookup]
        rw [show (id == k) = false from by simp [Ne.symm he]]
        exact ih

theorem mem_of_lookup (l : List (String × ℚ)) (id : String) (t : ℚ)
    (h : l.lookup id = some t) : (id, t) ∈ l := by
  induction l with
  | nil => simp [List.lookup] at h
  | cons e es ih =>
      obtain ⟨k, v⟩ := e
      by_cases he : id = k
      · subst he
        simp [List.lookup] at h
        simp [h]
      · simp only [List.lookup] at h
        rw [show (id == k) = false from by simp [he]] at h
        exact List.mem_cons_of_mem _ (ih h)

theorem keys_setEntry (l : List (String × ℚ)) (id : String) (t : ℚ) :
    (setEntry l id t).map Prod.fst =
      if id ∈ l.map Prod.fst then l.map Prod.fst else l.map Prod.fst ++ [id] := by
  induction l with
  | nil => simp [setEntry]
  | cons e es ih =>
      obtain ⟨k, v⟩ := e
      by_cases he : k = id
      · subst he
        simp [setEntry]
      · simp only [setEntry, he, if_false, List.map_cons]
        rw [ih]
        by_cases hmem : id ∈ es.map Prod.fst
        · simp [hmem, Ne.symm he]
        · simp [hmem, Ne.symm he]

theorem any_filter_key_false (l : List (String × ℚ)) (id : String) (p : String × ℚ → Bool)
    (h : id ∉ l.map Prod.fst) : ((l.filter p).any fun e => e.1 == id) = false := by
  induction l with
  | nil => rfl
  | cons e es ih =>
      simp only [List.map_cons, List.mem_cons] at h
      push_neg at h
      by_cases hp : p e
      · rw [List.filter_cons_of_pos hp]
        simp only [List.any_cons]
        rw [ih h.2]
        simp [beq_eq_false_iff_ne, Ne.symm h.1]
      · rw [List.filter_cons_of_neg (by simpa using hp)]
        exact ih h.2

theorem hasEvent_false_of_not_mem (c : EventCache) (id : String) (now : ℚ)
    (h : id ∉ c.keys) : (c.hasEvent id now).1 = false := by
  simp only [hasEvent, cleanup]
  exact any_filter_key_false _ _ _ (by simpa [keys] using h)

theorem hasEvent_true_of_mem (c : EventCache) (id : String) (t now : ℚ)
    (hm : (id, t) ∈ c.entries) (hfresh : ¬ c.ttl < now - t) :
    (c.hasEvent id now).1 = true := by
  simp only [hasEvent, cleanup, List.any_eq_true]
  exact ⟨(id, t), List.mem_filter.mpr ⟨hm, by simp [hfresh]⟩, by simp⟩

theorem any_filter_setEntry (l : List (String × ℚ)) (id : String) (t ttl t2 : ℚ)
    (hnd : (l.map Prod.fst).Nodup) :
    (((setEntry l id t).filter fun e => !decide (ttl < t2 - e.2)).any fun e => e.1 == id)
      = decide (t2 - t ≤ ttl) := by
  induction l with
  | nil =>
      by_cases h : ttl < t2 - t
      · simp [setEntry, h, not_le.mpr h]
      · simp [setEntry, h, not_lt.mp h]
  | cons e es ih =>
      obtain ⟨k, v⟩ := e
      simp only [List.map_cons, List.nodup_cons] at hnd
      by_cases hk : k = id
      · subst hk
        rw [show setEntry ((k, v) :: es) k t = (k, t) :: es from by simp [setEntry]]
        by_cases hfresh : ttl < t2 - t
        · rw [List.filter_cons_of_neg (by simp [hfresh])]
          rw [any_filter_key_false es k _ hnd.1]
          simp [not_le.mpr hfresh]
        · rw [List.filter_cons_of_pos (by simp [hfresh])]
          simp [not_lt.mp hfresh]
      · rw [show setEntry ((k, v) :: es) id t = (k, v) :: setEntry es id t from by
          simp [setEntry, hk]]
        by_cases hkeep : ttl < t2 - v
        · rw [List.filter_cons_of_neg (by simp [hkeep])]
          exact ih hnd.2
        · rw [List.filter_cons_of_pos (by simp [hkeep])]
          simp only [List.any_cons]
          rw [ih hnd.2]
          simp [beq_eq_false_iff_ne, hk]

theorem addEvent_hasEvent (c : EventCache) (id : String) (t t2 : ℚ)
    (hnd : c.keys.Nodup) :
    ((c.addEvent id t).hasEvent id t2).1 = decide (t2 - t ≤ c.ttl) := by
  simpa [hasEvent, addEvent, cleanup] using
    any_filter_setEntry c.entries id t c.ttl t2 (by simpa [keys] using hnd)

end EventCache

/-! ### Claim theorems: the event cache (C3, C4, C5) -/

/-- C3: `has(id)` is false before any `add(id)`; after `add(id)` at time
`t`, `has(id)` at time `t2` is true exactly while `t2 - t ≤ TTL` and
false afterwards; every `has` call removes from the cache precisely the
entries whose age exceeds the TTL; and in the N-entry sweep scenario
(here N = 3, all but the last entry aged past the TTL) `has` answers
false on each of the first N−1 ids and true on the last. -/
theorem eventCache_ttl_spec :
    (∀ (c : EventCache) (id : String) (now : ℚ),
        id ∉ c.keys → (c.hasEvent id now).1 = false)
    ∧ (∀ (c : EventCache) (id : String) (t t2 : ℚ), c.keys.Nodup →
        ((c.addEvent id t).hasEvent id t2).1 = decide (t2 - t ≤ c.ttl))
    ∧ (∀ (c : EventCache) (id : String) (now : ℚ) (e : String × ℚ),
        e ∈ ((c.hasEvent id now).2).entries ↔ e ∈ c.entries ∧ ¬ c.ttl < now - e.2)
    ∧ (((((EventCache.empty 300).addEvent "e1" 0).addEvent "e2" 10).addEvent "e3" 100).hasEvent
          "e1" 320).1 = false
    ∧ (((((EventCache.empty 300).addEvent "e1" 0).addEvent "e2" 10).addEvent "e3" 100).hasEvent
          "e2" 320).1 = false
    ∧ (((((EventCache.empty 300).addEvent "e1" 0).addEvent "e2" 10).addEvent "e3" 100).hasEvent
          "e3" 320).1 = true := by
  refine ⟨?_, ?_, ?_, ?_, ?_, ?_⟩
  · exact fun c id now h => EventCache.hasEvent_false_of_not_mem c id now h
  · exact fun c id t t2 hnd => EventCache.addEvent_hasEvent c id t t2 hnd
  · intro c id now e
    simp [EventCache.hasEvent, EventCache.cleanup, List.mem_filter]
  all_goals
    norm_num [EventCache.hasEvent, EventCache.cleanup, EventCache.addEvent,
      EventCache.setEntry, EventCache.empty, List.filter, List.any] <;> decide

/-- Witness for `eventCache_ttl_spec` at concrete inputs. -/
theorem eventCache_ttl_spec_witness :
    ("x" ∉ (EventCache.empty 300).keys ∧ ((EventCache.empty 300).hasEvent "x" 0).1 = false)
    ∧ ((EventCache.empty 300).keys.Nodup ∧
        (((EventCache.empty 300).addEvent "x" 0).hasEvent "x" 350).1
          = decide ((350 : ℚ) - 0 ≤ (EventCache.empty 300).ttl)) :=
  ⟨⟨by decide, eventCache_ttl_spec.1 (EventCache.empty 300) "x" 0 (by decide)⟩,
   ⟨by decide, eventCache_ttl_spec.2.1 (EventCache.empty 300) "x" 0 350 (by decide)⟩⟩

/-- C4 counterexample: `add_event` executes `cache[event_id] = time()`
unconditionally, so a repeated `add` at time 10 of an id first added at
time 0 stores timestamp 10, not the original 0 — the stored insertion
timestamp does not stay unchanged, and the age restarts from the
repeated add. -/
theorem addEvent_repeat_cex :
    (((EventCache.empty 300).addEvent "evt" 0).addEvent "evt" 10).entries ≠ [("evt", 0)]
    ∧ (((EventCache.empty 300).addEvent "evt" 0).addEvent "evt" 10).entries = [("evt", 10)]
    ∧ (((EventCache.empty 300).addEvent "evt" 0).addEvent "evt" 10).getAge "evt" 10 = some 0 := by
  norm_num [EventCache.getAge, EventCache.addEvent, EventCache.setEntry, EventCache.empty,
    List.lookup]

/-- C4 amended: calling `add(id)` again overwrites the stored timestamp
with the current time while keeping the entry's position in insertion
order — the entry's age counts from the most recent `add`, not from the
first one. -/
theorem addEvent_refreshes_timestamp (c : EventCache) (id : String) (t t2 : ℚ) :
    (c.addEvent id t).getAge id t2 = some (t2 - t)
    ∧ (c.addEvent id t).keys = (if id ∈ c.keys then c.keys else c.keys ++ [id]) := by
  constructor
  · simp [EventCache.getAge, EventCache.addEvent, EventCache.lookup_setEntry]
  · simpa [EventCache.keys, EventCache.addEvent] using
      EventCache.keys_setEntry c.entries id t

/-- C5 counterexample: with TTL 300, an entry added at time 0 and read at
time 301 has not been swept (`get_age` performs no sweep); `has_event`
treats it as absent, but `get_age` returns the float 301 instead of the
absent value `None`. -/
theorem getAge_ttl_cex :
    (((EventCache.empty 300).addEvent "evt" 0).hasEvent "evt" 301).1 = false
    ∧ ((EventCache.empty 300).addEvent "evt" 0).getAge "evt" 301 = some 301
    ∧ ((EventCache.empty 300).addEvent "evt" 0).getAge "evt" 301 ≠ none := by
  norm_num [EventCache.hasEvent, EventCache.cleanup, EventCache.getAge, EventCache.addEvent,
    EventCache.setEntry, EventCache.empty, List.filter, List.any, List.lookup] <;> decide

/-- C5 amended: an entry older than the TTL is treated as absent by
`has_event` (which sweeps first), but `get_age` performs no TTL check: on
an expired, not-yet-swept entry it returns the elapsed seconds as a value
rather than absent. -/
theorem expired_entry_reads (ttl t now : ℚ) (id : String) (h : ttl < now - t) :
    (((EventCache.empty ttl).addEvent id t).hasEvent id now).1 = false
    ∧ ((EventCache.empty ttl).addEvent id t).getAge id now = some (now - t) := by
  constructor
  · have hh := EventCache.addEvent_hasEvent (EventCache.empty ttl) id t now
      (by simp [EventCache.keys, EventCache.empty])
    rw [hh]
    simpa [EventCache.empty] using not_le.mpr h
  · simp [EventCache.getAge, EventCache.addEvent, EventCache.lookup_setEntry]

/-! ### Lemmas about the gateway pipeline -/

theorem verify_expected_ok (secret body ts : String) (now : ℚ) (n : ℤ)
    (h : pyInt ts = some n) (hw : ¬ 60 * 5 < |now - (n : ℚ)|) :
    verify secret body ts (expectedSignature secret ts body) now = .ok true := by
  simp [verify, h, hw]

theorem handleEvent_event_callback (secret bot rawBody : String) (cache : EventCache)
    (tsH sigH : Option String) (chal : Option String) (ev : SlackEvent) (now : ℚ)
    (hv : verify secret rawBody (tsH.getD "") (sigH.getD "") now = .ok true) :
    handleEvent secret bot cache tsH sigH rawBody
        (.parsed (some "event_callback") chal (some ev)) now
      = handleEventCallback bot cache ev now := by
  simp [handleEvent, hv]

theorem handleEventCallback_dup (bot : String) (cache : EventCache) (ev : SlackEvent)
    (now tsv : ℚ) (hts : pyFloatO ev.ts = some tsv) (hfresh : ¬ 60 < now - tsv)
    (hdup : (cache.hasEvent (eventIdentity ev) now).1 = true) :
    handleEventCallback bot cache ev now
      = ⟨.okTrue, (cache.hasEvent (eventIdentity ev) now).2, none⟩ := by
  unfold handleEventCallback
  simp only [hts, hfresh, if_false, hdup, if_true]

theorem handleEventCallback_new (bot : String) (cache : EventCache) (ev : SlackEvent)
    (now tsv : ℚ) (hts : pyFloatO ev.ts = some tsv) (hfresh : ¬ 60 < now - tsv)
    (hnew : (cache.hasEvent (eventIdentity ev) now).1 = false) :
    (handleEventCallback bot cache ev now).response = .okTrue
    ∧ (handleEventCallback bot cache ev now).cache
        = ((cache.hasEvent (eventIdentity ev) now).2).addEvent (eventIdentity ev) now := by
  unfold handleEventCallback
  simp only [hts, hfresh, if_false, hnew, Bool.false_eq_true]
  constructor
  · split
    · rfl
    · split
      · rfl
      · split <;> rfl
  · split
    · rfl
    · split
      · rfl
      · split <;> rfl

theorem outcome_cache_ttl (cache : EventCache) (id : String) (now : ℚ) :
    (((cache.hasEvent id now).2).addEvent id now).ttl = cache.ttl := rfl

theorem handleEventCallback_outcomes (bot : String) (cache : EventCache) (ev : SlackEvent)
    (now : ℚ) :
    (handleEventCallback bot cache ev now).response = .okTrue
    ∨ (handleEventCallback bot cache ev now).task = none := by
  unfold handleEventCallback
  split
  · right; rfl
  · left
    dsimp only
    repeat' split <;> try rfl

theorem handleEvent_outcomes (secret bot rawBody : String) (cache : EventCache)
    (tsH sigH : Option String) (body : RequestBody) (now : ℚ) :
    (handleEvent secret bot cache tsH sigH rawBody body now).response = .okTrue
    ∨ (handleEvent secret bot cache tsH sigH rawBody body now).task = none := by
  cases body with
  | malformed => right; rfl
  | parsed btype chal evOpt =>
      simp only [handleEvent]
      split
      · right; rfl
      · right; rfl
      · split
        · right; rfl
        · split
          · exact handleEventCallback_outcomes bot cache (evOpt.getD {}) now
          · left; rfl

theorem handleEvent_task_ok (secret bot rawBody : String) (cache : EventCache)
    (tsH sigH : Option String) (body : RequestBody) (now : ℚ) (bt : BackgroundTask)
    (h : (handleEvent secret bot cache tsH sigH rawBody body now).task = some bt) :
    (handleEvent secret bot cache tsH sigH rawBody body now).response = .okTrue := by
  rcases handleEvent_outcomes secret bot rawBody cache tsH sigH body now with h1 | h1
  · exact h1
  · rw [h1] at h
    exact absurd h (by simp)

/-- Witness for `expired_entry_reads` at TTL 300, insertion time 0,
read time 301. -/
theorem ttl_301_sub_zero : (300 : ℚ) < 301 - 0 := by norm_num

theorem expired_entry_reads_witness :
    (300 : ℚ) < 301 - 0
    ∧ ((((EventCache.empty 300).addEvent "evt" 0).hasEvent "evt" 301).1 = false
       ∧ ((EventCache.empty 300).addEvent "evt" 0).getAge "evt" 301 = some (301 - 0)) :=
  ⟨ttl_301_sub_zero, expired_entry_reads 300 0 301 "evt" ttl_301_sub_zero⟩

/-! ### Concrete evaluation lemmas used by the witnesses -/

theorem pyInt_100 : pyInt "100" = some 100 := by decide

theorem pyFloat_100 : pyFloat "100.0" = some 100 := by
  simp +decide [pyFloat, trimPySpace, isPySpace, digitsVal]

theorem win_100 : ¬ (60 * 5 : ℚ) < |(100 : ℚ) - ((100 : ℤ) : ℚ)| := by norm_num

theorem fresh_100 : ¬ (60 : ℚ) < 100 - 100 := by norm_num

theorem ttl_100 : (100 : ℚ) - 100 ≤ (EventCache.empty 300).ttl := by
  norm_num [EventCache.empty]

/-! ### Claim theorems: verifier (C1) and gateway (C2) -/

/-- C1: with a parseable timestamp, `verify` returns true iff the
timestamp is within 300 seconds of the current time and the signature
equals `"v0=" + hex(HMAC-SHA256(secret, "v0:" + timestamp + ":" + body))`;
any other signature (in particular any mutation of the correct one) makes
the result not-true; a timestamp more than 300 seconds away forces false
regardless of the signature; and a body mutation that changes the HMAC
digest makes verification of the original signature fail. -/
theorem verify_signature_spec (secret body ts sig : String) (now : ℚ) (n : ℤ)
    (hts : pyInt ts = some n) :
    (verify secret body ts sig now = .ok true ↔
      |now - (n : ℚ)| ≤ 60 * 5 ∧ sig = expectedSignature secret ts body)
    ∧ (∀ sig2 : String, sig2 ≠ expectedSignature secret ts body →
        verify secret body ts sig2 now ≠ .ok true)
    ∧ (60 * 5 < |now - (n : ℚ)| → verify secret body ts sig now = .ok false)
    ∧ (∀ body2 : String,
        expectedSignature secret ts body2 ≠ expectedSignature secret ts body →
        verify secret body2 ts (expectedSignature secret ts body) now ≠ .ok true) := by
  have hv : ∀ b s : String, verify secret b ts s now
      = if 60 * 5 < |now - (n : ℚ)| then .ok false
        else .ok (expectedSignature secret ts b == s) := by
    intro b s
    simp [verify, hts]
  by_cases hw : 60 * 5 < |now - (n : ℚ)|
  · refine ⟨?_, ?_, fun _ => by rw [hv, if_pos hw], ?_⟩
    · rw [hv]
      simp [not_le.mpr hw, hw]
    · intro sig2 _
      rw [hv]
      simp [hw]
    · intro body2 _
      rw [hv]
      simp [hw]
  · refine ⟨?_, ?_, fun hcon => absurd hcon hw, ?_⟩
    · rw [hv]
      simp only [if_neg hw, not_lt.mp hw, true_and]
      constructor
      · intro h
        have := Except.ok.inj h
        exact (beq_iff_eq.mp this).symm
      · intro h
        rw [h]
        simp
    · intro sig2 hne
      rw [hv]
      simp only [if_neg hw]
      intro h
      exact hne (beq_iff_eq.mp (Except.ok.inj h)).symm
    · intro body2 hne
      rw [hv]
      simp only [if_neg hw]
      intro h
      exact hne (beq_iff_eq.mp (Except.ok.inj h))

/-- Witness for `verify_signature_spec` at a concrete timestamp. -/
theorem verify_signature_spec_witness :
    pyInt "100" = some 100
    ∧ ((verify "k" "b" "100" "x" 100 = .ok true ↔
          |(100 : ℚ) - ((100 : ℤ) : ℚ)| ≤ 60 * 5 ∧ "x" = expectedSignature "k" "100" "b")
       ∧ (∀ sig2 : String, sig2 ≠ expectedSignature "k" "100" "b" →
            verify "k" "b" "100" sig2 100 ≠ .ok true)
       ∧ (60 * 5 < |(100 : ℚ) - ((100 : ℤ) : ℚ)| → verify "k" "b" "100" "x" 100 = .ok false)
       ∧ (∀ body2 : String,
            expectedSignature "k" "100" body2 ≠ expectedSignature "k" "100" "b" →
            verify "k" body2 "100" (expectedSignature "k" "100" "b") 100 ≠ .ok true)) :=
  ⟨pyInt_100, verify_signature_spec "k" "b" "100" "x" 100 100 pyInt_100⟩

/-- C2: for an `event_callback` delivery that passes signature
verification and the freshness gate, if the event identity is already in
the cache the gateway answers `ok: true`, schedules no background
task and only sweeps the cache; if it is not, the gateway answers
`ok: true` and the post-call cache maps the identity to the current
time — the insert happens in the synchronous phase, whatever came after —
and a second delivery of the same event within the TTL window yields
`ok: true` with no background task. -/
theorem gateway_dedup_spec (secret bot rawBody : String) (cache : EventCache)
    (tsH sigH : Option String) (chal : Option String) (ev : SlackEvent) (now tsv : ℚ)
    (hv : verify secret rawBody (tsH.getD "") (sigH.getD "") now = .ok true)
    (hts : pyFloatO ev.ts = some tsv) (hfresh : ¬ 60 < now - tsv) :
    ((cache.hasEvent (eventIdentity ev) now).1 = true →
      handleEvent secret bot cache tsH sigH rawBody
          (.parsed (some "event_callback") chal (some ev)) now
        = ⟨.okTrue, (cache.hasEvent (eventIdentity ev) now).2, none⟩)
    ∧ ((cache.hasEvent (eventIdentity ev) now).1 = false →
        (handleEvent secret bot cache tsH sigH rawBody
            (.parsed (some "event_callback") chal (some ev)) now).response = .okTrue
        ∧ ((handleEvent secret bot cache tsH sigH rawBody
            (.parsed (some "event_callback") chal (some ev)) now).cache.entries.lookup
              (eventIdentity ev)) = some now)
    ∧ (∀ (rawBody2 : String) (tsH2 sigH2 chal2 : Option String) (now2 : ℚ),
        (cache.hasEvent (eventIdentity ev) now).1 = false →
        verify secret rawBody2 (tsH2.getD "") (sigH2.getD "") now2 = .ok true →
        ¬ 60 < now2 - tsv →
        now2 - now ≤ cache.ttl →
        (handleEvent secret bot
            (handleEvent secret bot cache tsH sigH rawBody
              (.parsed (some "event_callback") chal (some ev)) now).cache
            tsH2 sigH2 rawBody2 (.parsed (some "event_callback") chal2 (some ev)) now2).response
          = .okTrue
        ∧ (handleEvent secret bot
            (handleEvent secret bot cache tsH sigH rawBody
              (.parsed (some "event_callback") chal (some ev)) now).cache
            tsH2 sigH2 rawBody2 (.parsed (some "event_callback") chal2 (some ev)) now2).task
          = none) := by
  have h1 := handleEvent_event_callback secret bot rawBody cache tsH sigH chal ev now hv
  refine ⟨?_, ?_, ?_⟩
  · intro hdup
    rw [h1]
    exact handleEventCallback_dup bot cache ev now tsv hts hfresh hdup
  · intro hnew
    have h2 := handleEventCallback_new bot cache ev now tsv hts hfresh hnew
    rw [h1]
    refine ⟨h2.1, ?_⟩
    rw [h2.2]
    simp [EventCache.addEvent, EventCache.lookup_setEntry]
  · intro rawBody2 tsH2 sigH2 chal2 now2 hnew hv2 hfresh2 httl
    have h2 := handleEventCallback_new bot cache ev now tsv hts hfresh hnew
    have hcache : (handleEvent secret bot cache tsH sigH rawBody
          (.parsed (some "event_callback") chal (some ev)) now).cache
        = ((cache.hasEvent (eventIdentity ev) now).2).addEvent (eventIdentity ev) now := by
      rw [h1, h2.2]
    have hmem : (eventIdentity ev, now) ∈ ((handleEvent secret bot cache tsH sigH rawBody
          (.parsed (some "event_callback") chal (some ev)) now).cache).entries := by
      rw [hcache]
      exact EventCache.mem_of_lookup _ _ _
        (by simp [EventCache.addEvent, EventCache.lookup_setEntry])
    have httl2 : ¬ ((handleEvent secret bot cache tsH sigH rawBody
          (.parsed (some "event_callback") chal (some ev)) now).cache).ttl < now2 - now := by
      rw [hcache]
      exact not_lt.mpr httl
    have hdup2 := EventCache.hasEvent_true_of_mem _ (eventIdentity ev) now now2 hmem httl2
    rw [handleEvent_event_callback secret bot rawBody2 _ tsH2 sigH2 chal2 ev now2 hv2,
        handleEventCallback_dup bot _ ev now2 tsv hts hfresh2 hdup2]
    exact ⟨rfl, rfl⟩

/-! ### Concrete witness data -/

/-- Correct signature for secret `"k"`, timestamp `"100"`, body `"b"`. -/
def wSig : String := expectedSignature "k" "100" "b"

/-- A concrete fresh mention event in channel `C1`. -/
def wEv : SlackEvent :=
  { type_ := some "app_mention", ts := some "100.0", channel := some "C1",
    user := some "U1", text := some "hi" }

/-- The same event as `wEv` delivered in channel `C2`. -/
def wEv2 : SlackEvent :=
  { type_ := some "app_mention", ts := some "100.0", channel := some "C2",
    user := some "U1", text := some "hi" }

def wCache : EventCache := EventCache.empty 300

theorem wVerify : verify "k" "b" ((some "100").getD "") ((some wSig).getD "") 100 = .ok true :=
  verify_expected_ok "k" "b" "100" 100 100 pyInt_100 win_100

theorem wFloat : pyFloatO wEv.ts = some 100 := pyFloat_100

theorem wFloat2 : pyFloatO wEv2.ts = some 100 := pyFloat_100

/-- Witness for `gateway_dedup_spec` on a concrete fresh delivery. -/
theorem gateway_dedup_spec_witness :
    (verify "k" "b" ((some "100").getD "") ((some wSig).getD "") 100 = .ok true
     ∧ pyFloatO wEv.ts = some 100 ∧ ¬ (60 : ℚ) < 100 - 100)
    ∧ (((wCache.hasEvent (eventIdentity wEv) 100).1 = true →
          handleEvent "k" "B" wCache (some "100") (some wSig) "b"
              (.parsed (some "event_callback") none (some wEv)) 100
            = ⟨.okTrue, (wCache.hasEvent (eventIdentity wEv) 100).2, none⟩)
       ∧ ((wCache.hasEvent (eventIdentity wEv) 100).1 = false →
            (handleEvent "k" "B" wCache (some "100") (some wSig) "b"
                (.parsed (some "event_callback") none (some wEv)) 100).response = .okTrue
            ∧ ((handleEvent "k" "B" wCache (some "100") (some wSig) "b"
                (.parsed (some "event_callback") none (some wEv)) 100).cache.entries.lookup
                  (eventIdentity wEv)) = some 100)
       ∧ (∀ (rawBody2 : String) (tsH2 sigH2 chal2 : Option String) (now2 : ℚ),
            (wCache.hasEvent (eventIdentity wEv) 100).1 = false →
            verify "k" rawBody2 (tsH2.getD "") (sigH2.getD "") now2 = .ok true →
            ¬ 60 < now2 - 100 →
            now2 - 100 ≤ wCache.ttl →
            (handleEvent "k" "B"
                (handleEvent "k" "B" wCache (some "100") (some wSig) "b"
                  (.parsed (some "event_callback") none (some wEv)) 100).cache
                tsH2 sigH2 rawBody2
                (.parsed (some "event_callback") chal2 (some wEv)) now2).response = .okTrue
            ∧ (handleEvent "k" "B"
                (handleEvent "k" "B" wCache (some "100") (some wSig) "b"
                  (.parsed (some "event_callback") none (some wEv)) 100).cache
                tsH2 sigH2 rawBody2
                (.parsed (some "event_callback") chal2 (some wEv)) now2).task = none)) :=
  ⟨⟨wVerify, wFloat, fresh_100⟩,
   gateway_dedup_spec "k" "B" "b" wCache (some "100") (some wSig) none wEv 100 100
     wVerify wFloat fresh_100⟩

/-- C8: the event identity is computed from the event type and timestamp
only, so two events sharing those two fields get the same identity
whatever their other fields; consequently, when two such events arrive in
different channels within the TTL window (both passing verification and
the freshness gate, the first one unseen), the second delivery is
suppressed as a duplicate: `ok: true` and no background task. -/
theorem eventIdentity_channel_spec :
    (∀ ev1 ev2 : SlackEvent, ev1.type_ = ev2.type_ → ev1.ts = ev2.ts →
        eventIdentity ev1 = eventIdentity ev2)
    ∧ (∀ (secret bot rawBody1 rawBody2 : String) (cache : EventCache)
        (tsH1 sigH1 tsH2 sigH2 chal1 chal2 : Option String) (ev1 ev2 : SlackEvent)
        (now1 now2 tsv1 tsv2 : ℚ),
        ev1.type_ = ev2.type_ → ev1.ts = ev2.ts → ev1.channel ≠ ev2.channel →
        verify secret rawBody1 (tsH1.getD "") (sigH1.getD "") now1 = .ok true →
        verify secret rawBody2 (tsH2.getD "") (sigH2.getD "") now2 = .ok true →
        pyFloatO ev1.ts = some tsv1 → ¬ 60 < now1 - tsv1 →
        pyFloatO ev2.ts = some tsv2 → ¬ 60 < now2 - tsv2 →
        (cache.hasEvent (eventIdentity ev1) now1).1 = false →
        now2 - now1 ≤ cache.ttl →
        (handleEvent secret bot
            (handleEvent secret bot cache tsH1 sigH1 rawBody1
              (.parsed (some "event_callback") chal1 (some ev1)) now1).cache
            tsH2 sigH2 rawBody2
            (.parsed (some "event_callback") chal2 (some ev2)) now2).response = .okTrue
        ∧ (handleEvent secret bot
            (handleEvent secret bot cache tsH1 sigH1 rawBody1
              (.parsed (some "event_callback") chal1 (some ev1)) now1).cache
            tsH2 sigH2 rawBody2
            (.parsed (some "event_callback") chal2 (some ev2)) now2).task = none) := by
  have hident : ∀ ev1 ev2 : SlackEvent, ev1.type_ = ev2.type_ → ev1.ts = ev2.ts →
      eventIdentity ev1 = eventIdentity ev2 := by
    intro ev1 ev2 h1 h2
    simp [eventIdentity, h1, h2]
  refine ⟨hident, ?_⟩
  intro secret bot rawBody1 rawBody2 cache tsH1 sigH1 tsH2 sigH2 chal1 chal2 ev1 ev2
    now1 now2 tsv1 tsv2 htype hts0 _hchan hv1 hv2 hpf1 hfresh1 hpf2 hfresh2 hnew httl
  have hid : eventIdentity ev2 = eventIdentity ev1 := (hident ev1 ev2 htype hts0).symm
  have h1 := handleEvent_event_callback secret bot rawBody1 cache tsH1 sigH1 chal1 ev1 now1 hv1
  have h2 := handleEventCallback_new bot cache ev1 now1 tsv1 hpf1 hfresh1 hnew
  have hcache : (handleEvent secret bot cache tsH1 sigH1 rawBody1
        (.parsed (some "event_callback") chal1 (some ev1)) now1).cache
      = ((cache.hasEvent (eventIdentity ev1) now1).2).addEvent (eventIdentity ev1) now1 := by
    rw [h1, h2.2]
  have hmem : (eventIdentity ev1, now1) ∈ ((handleEvent secret bot cache tsH1 sigH1 rawBody1
        (.parsed (some "event_callback") chal1 (some ev1)) now1).cache).entries := by
    rw [hcache]
    exact EventCache.mem_of_lookup _ _ _
      (by simp [EventCache.addEvent, EventCache.lookup_setEntry])
  have httl2 : ¬ ((handleEvent secret bot cache tsH1 sigH1 rawBody1
        (.parsed (some "event_callback") chal1 (some ev1)) now1).cache).ttl < now2 - now1 := by
    rw [hcache]
    exact not_lt.mpr httl
  have hdup2 : (((handleEvent secret bot cache tsH1 sigH1 rawBody1
        (.parsed (some "event_callback") chal1 (some ev1)) now1).cache).hasEvent
          (eventIdentity ev2) now2).1 = true := by
    rw [hid]
    exact EventCache.hasEvent_true_of_mem _ (eventIdentity ev1) now1 now2 hmem httl2
  rw [handleEvent_event_callback secret bot rawBody2 _ tsH2 sigH2 chal2 ev2 now2 hv2,
      handleEventCallback_dup bot _ ev2 now2 tsv2 hpf2 hfresh2 hdup2]
  exact ⟨rfl, rfl⟩

/-- Witness for `eventIdentity_channel_spec`: the same logical event
delivered in channels `C1` and `C2`. -/
theorem eventIdentity_channel_spec_witness :
    (wEv.type_ = wEv2.type_ ∧ wEv.ts = wEv2.ts ∧ wEv.channel ≠ wEv2.channel
     ∧ (wCache.hasEvent (eventIdentity wEv) 100).1 = false
     ∧ (100 : ℚ) - 100 ≤ wCache.ttl)
    ∧ ((handleEvent "k" "B"
          (handleEvent "k" "B" wCache (some "100") (some wSig) "b"
            (.parsed (some "event_callback") none (some wEv)) 100).cache
          (some "100") (some wSig) "b"
          (.parsed (some "event_callback") none (some wEv2)) 100).response = .okTrue
       ∧ (handleEvent "k" "B"
          (handleEvent "k" "B" wCache (some "100") (some wSig) "b"
            (.parsed (some "event_callback") none (some wEv)) 100).cache
          (some "100") (some wSig) "b"
          (.parsed (some "event_callback") none (some wEv2)) 100).task = none) :=
  ⟨⟨rfl, rfl, by decide, rfl, ttl_100⟩,
   eventIdentity_channel_spec.2 "k" "B" "b" "b" wCache (some "100") (some wSig)
     (some "100") (some wSig) none none wEv wEv2 100 100 100 100 rfl rfl (by decide)
     wVerify wVerify wFloat fresh_100 wFloat2 fresh_100 rfl ttl_100⟩

/-- C9 counterexample: a malformed-JSON delivery makes `request.json()`
raise an unhandled `json.JSONDecodeError`, so the handler answers
HTTP 500, not the claimed 400 — though indeed synchronously and with no
background work. -/
theorem malformed_payload_cex :
    statusCode (handleEvent "s" "B" (EventCache.empty 300) none none "" .malformed 0).response
      = 500
    ∧ statusCode (handleEvent "s" "B" (EventCache.empty 300) none none "" .malformed 0).response
      ≠ 400
    ∧ (handleEvent "s" "B" (EventCache.empty 300) none none "" .malformed 0).task = none :=
  ⟨rfl, by decide, rfl⟩

/-- C9 amended: a malformed-JSON body fails fast — the failure escapes the
handler synchronously as an unhandled parse exception (HTTP 500, not a
400 client error), the cache is untouched and no background work is
performed. -/
theorem malformed_payload_behavior (secret bot rawBody : String) (cache : EventCache)
    (tsH sigH : Option String) (now : ℚ) :
    handleEvent secret bot cache tsH sigH rawBody .malformed now = ⟨.serverError, cache, none⟩
    ∧ statusCode .serverError = 500 :=
  ⟨rfl, rfl⟩

/-- C10: `int(timestamp)` raises `ValueError` on a non-integer string —
for instance the empty string substituted for a missing
`X-Slack-Request-Timestamp` header, or a fractional `"100.5"` — so
`verify` errors instead of returning false, and a request without the
header dies as an unhandled server error (500), never reaching the 401
unauthorized response. -/
theorem timestamp_value_error_spec (secret bot rawBody : String) (cache : EventCache)
    (sigH : Option String) (btype chal : Option String) (evOpt : Option SlackEvent) (now : ℚ) :
    pyInt "" = none
    ∧ pyInt "100.5" = none
    ∧ (∀ (body ts sig : String) (now2 : ℚ), pyInt ts = none →
        verify secret body ts sig now2 = .error ())
    ∧ handleEvent secret bot cache none sigH rawBody (.parsed btype chal evOpt) now
        = ⟨.serverError, cache, none⟩
    ∧ HttpResponse.serverError ≠ .unauthorized := by
  have hverr : ∀ (body ts sig : String) (now2 : ℚ), pyInt ts = none →
      verify secret body ts sig now2 = .error () := by
    intro body ts sig now2 h
    simp [verify, h]
  refine ⟨rfl, by decide, hverr, ?_, by decide⟩
  have h0 : verify secret rawBody "" (sigH.getD "") now = .error () :=
    hverr rawBody "" (sigH.getD "") now rfl
  simp [handleEvent, h0]

/-- Witness for `timestamp_value_error_spec` with a concrete unparseable
timestamp discharged inside the quantified conjunct. -/
theorem timestamp_value_error_spec_witness :
    pyInt "" = none
    ∧ verify "k" "b" "" "v0=x" 0 = .error ()
    ∧ handleEvent "k" "B" wCache none none "b" (.parsed (some "event_callback") none none) 0
        = ⟨.serverError, wCache, none⟩ :=
  ⟨rfl,
   (timestamp_value_error_spec "k" "B" "b" wCache none (some "event_callback") none none
       0).2.2.1 "b" "" "v0=x" 0 rfl,
   (timestamp_value_error_spec "k" "B" "b" wCache none (some "event_callback") none none
       0).2.2.2.1⟩

/-- C6: when the background phase reaches the forward step and the
forward call fails with `BackendUnavailable`, the transcript already
holds the user's message (appended before the forward), no outbound post
happens, and the failure is only logged; the webhook caller was already
answered, since any delivery that schedules a background task got the
`ok: true` response. -/
theorem backend_unavailable_spec (hist : List TranscriptEntry) (ev : SlackEvent)
    (userLookup : Option String) (reqId reqTs : String) (postOk : Bool)
    (chan tsv uid : String)
    (hch : ev.channel = some chan) (hts : ev.ts = some tsv) (hu : ev.user = some uid) :
    processEventAsync hist ev true userLookup reqId reqTs (.error ()) postOk
      = ⟨chatAppend hist (chan ++ ":" ++ ev.thread_ts.getD tsv) "user"
            (cleanBotMentions (ev.text.getD "")) (userLookup.getD uid),
         true, false, true⟩
    ∧ (∀ (secret bot rawBody : String) (cache : EventCache) (tsH sigH : Option String)
        (body : RequestBody) (now : ℚ) (bt : BackgroundTask),
        (handleEvent secret bot cache tsH sigH rawBody body now).task = some bt →
        (handleEvent secret bot cache tsH sigH rawBody body now).response = .okTrue) := by
  constructor
  · cases userLookup with
    | none => simp [processEventAsync, hch, hts, hu, normalize]
    | some nm => simp [processEventAsync, hch, hts, hu, normalize]
  · intro secret bot rawBody cache tsH sigH body now bt h
    exact handleEvent_task_ok secret bot rawBody cache tsH sigH body now bt h

/-- Witness for `backend_unavailable_spec` on a concrete event. -/
theorem backend_unavailable_spec_witness :
    (wEv.channel = some "C1" ∧ wEv.ts = some "100.0" ∧ wEv.user = some "U1")
    ∧ (processEventAsync [] wEv true none "rid" "rts" (.error ()) true
        = ⟨chatAppend [] ("C1" ++ ":" ++ wEv.thread_ts.getD "100.0") "user"
              (cleanBotMentions (wEv.text.getD "")) ((none : Option String).getD "U1"),
           true, false, true⟩
       ∧ (∀ (secret bot rawBody : String) (cache : EventCache) (tsH sigH : Option String)
            (body : RequestBody) (now : ℚ) (bt : BackgroundTask),
            (handleEvent secret bot cache tsH sigH rawBody body now).task = some bt →
            (handleEvent secret bot cache tsH sigH rawBody body now).response = .okTrue)) :=
  ⟨⟨rfl, rfl, rfl⟩,
   backend_unavailable_spec [] wEv none "rid" "rts" true "C1" "100.0" "U1" rfl rfl rfl⟩

/-- C7: `normalize` yields a request whose cleaned text is the event text
with every `<@`-uppercase-alphanumeric-`>` mention token removed and
surrounding whitespace trimmed, whose raw text is the original text
unchanged, and whose context carries
`conversation_id = channel + ":" + thread_ts` with `thread_ts` defaulting
to the event's own `ts`; concretely, `"<@U123> deploy the service"`
cleans to `"deploy the service"`, and channel `C1` with `ts` `100.5` and
no thread field yields `"C1:100.5"`. -/
theorem normalize_spec (ev : SlackEvent) (reqId reqTs : String) (userLookup : Option String)
    (chan tsv uid : String)
    (hch : ev.channel = some chan) (hts : ev.ts = some tsv) (hu : ev.user = some uid) :
    (∃ req : AgentRequest, normalize ev reqId reqTs userLookup = .ok req
      ∧ req.message.text = cleanBotMentions (ev.text.getD "")
      ∧ req.message.raw_text = ev.text.getD ""
      ∧ req.context.conversation_id = chan ++ ":" ++ ev.thread_ts.getD tsv)
    ∧ cleanBotMentions "<@U123> deploy the service" = "deploy the service"
    ∧ (∀ req2 : AgentRequest,
        normalize { type_ := some "message", ts := some "100.5", channel := some "C1",
                    user := some "U9" } reqId reqTs userLookup = .ok req2 →
        req2.context.conversation_id = "C1:100.5") := by
  refine ⟨?_, by decide, ?_⟩
  · have hn : normalize ev reqId reqTs userLookup = .ok {
        id := reqId, timestamp := reqTs,
        source := { platform := "slack", workspace := ev.team.getD "unknown", channel := chan,
                    thread_ts := ev.thread_ts.getD tsv, user_id := uid,
                    username := match userLookup with | some nm => nm | none => "unknown" },
        agent := { name := "engineer", type_ := "developer" },
        message := { text := cleanBotMentions (ev.text.getD ""), raw_text := ev.text.getD "" },
        context := { conversation_id := chan ++ ":" ++ ev.thread_ts.getD tsv } } := by
      simp [normalize, hch, hts, hu]
    exact ⟨_, hn, rfl, rfl, rfl⟩
  · intro req2 h
    simp [normalize] at h
    rw [← h]

/-- Witness for `normalize_spec` on a concrete mention event. -/
theorem normalize_spec_witness :
    (wEv.channel = some "C1" ∧ wEv.ts = some "100.0" ∧ wEv.user = some "U1")
    ∧ ((∃ req : AgentRequest, normalize wEv "rid" "rts" none = .ok req
         ∧ req.message.text = cleanBotMentions (wEv.text.getD "")
         ∧ req.message.raw_text = wEv.text.getD ""
         ∧ req.context.conversation_id = "C1" ++ ":" ++ wEv.thread_ts.getD "100.0")
       ∧ cleanBotMentions "<@U123> deploy the service" = "deploy the service"
       ∧ (∀ req2 : AgentRequest,
            normalize { type_ := some "message", ts := some "100.5", channel := some "C1",
                        user := some "U9" } "rid" "rts" none = .ok req2 →
            req2.context.conversation_id = "C1:100.5")) :=
  ⟨⟨rfl, rfl, rfl⟩, normalize_spec wEv "rid" "rts" none "C1" "100.0" "U1" rfl rfl rfl⟩

end QuantaFi
